import Mathlib

/-!
Shallow embedding of the contact-form page of the repository
(src/app/contact/page.tsx): the lead-submission draft, its validation,
the field-change handler, the submission orchestration, the one-shot
script loader, and the verification-session initialization.

JavaScript strings are embedded as Lean strings; string truthiness
(empty string is falsy) is made explicit wherever the source relies on
it.  Machine-level details (the DOM, React scheduling) are abstracted
into explicit state records; each definition names the source construct
it embeds.
-/

/-- ASCII part of the JavaScript whitespace class backslash-s, which is
what String.prototype.trim removes at the ends of the strings appearing
here. -/
def isJsWhitespace (c : Char) : Bool :=
  c == ' ' || c == '\t' || c == '\n' || c == '\r' || c == '\x0b' || c == '\x0c'

/-- Drop leading whitespace characters from a character list. -/
def dropLeadingWs : List Char → List Char
  | [] => []
  | c :: rest => if isJsWhitespace c then dropLeadingWs rest else c :: rest

/-- Embedding of String.prototype.trim: remove leading and trailing
whitespace. -/
def jsTrim (s : String) : String :=
  String.mk ((dropLeadingWs (dropLeadingWs s.toList).reverse).reverse)

/-- The character class [^\s@] of the email regular expression in
validate: any character that is neither whitespace nor the at sign. -/
def isEmailAtomChar (c : Char) : Bool :=
  !isJsWhitespace c && c != '@'

/-- True when the list contains a dot at some position strictly before
the last position. -/
def hasDotNotLast : List Char → Bool
  | [] => false
  | [_] => false
  | c :: rest => c == '.' || hasDotNotLast rest

/-- Split a character list at its first at sign, if any. -/
def splitAtFirstAt : List Char → Option (List Char × List Char)
  | [] => none
  | c :: rest =>
    if c == '@' then some ([], rest)
    else
      match splitAtFirstAt rest with
      | none => none
      | some (l, r) => some (c :: l, r)

/-- Embedding of the test of the anchored regular expression
caret [^\s@]+ at [^\s@]+ dot [^\s@]+ dollar used in validate.  Because
the atom class excludes the at sign, a string matches exactly when it
has exactly one at sign, a non-empty all-atom part before it, and an
all-atom part after it containing a dot at an interior position (at
least one atom before the dot and at least one after it). -/
def emailRegexTest (s : String) : Bool :=
  match splitAtFirstAt s.toList with
  | none => false
  | some (lp, dp) =>
    !lp.isEmpty && lp.all isEmailAtomChar && dp.all isEmailAtomChar
      && hasDotNotLast (dp.drop 1)

/-- Embedding of the regular expression backslash-D replacement in
handleSubmit: keep exactly the decimal digits, in order. -/
def digitsOnly (s : String) : String :=
  String.mk (s.toList.filter Char.isDigit)

/-- The FormData record of the page: the ten string fields of the lead
submission draft. -/
structure FormData where
  name : String
  email : String
  phone : String
  projectType : String
  city : String
  property : String
  estimatedCloseDate : String
  company : String
  timeline : String
  message : String
deriving DecidableEq

/-- The draft the component mounts with, and the value the draft is
reset to on a successful submission: every field the empty string. -/
def emptyFormData : FormData :=
  { name := "", email := "", phone := "", projectType := "", city := "",
    property := "", estimatedCloseDate := "", company := "", timeline := "",
    message := "" }

/-- The ten field names of FormData, used to index the draft and the
error mapping. -/
inductive FieldName
  | name | email | phone | projectType | city | property
  | estimatedCloseDate | company | timeline | message
deriving DecidableEq

/-- Read one field of the draft. -/
def FormData.get (d : FormData) : FieldName → String
  | .name => d.name
  | .email => d.email
  | .phone => d.phone
  | .projectType => d.projectType
  | .city => d.city
  | .property => d.property
  | .estimatedCloseDate => d.estimatedCloseDate
  | .company => d.company
  | .timeline => d.timeline
  | .message => d.message

/-- Write one field of the draft, leaving the others unchanged
(the spread-update of handleChange). -/
def FormData.set (d : FormData) : FieldName → String → FormData
  | .name, v => { d with name := v }
  | .email, v => { d with email := v }
  | .phone, v => { d with phone := v }
  | .projectType, v => { d with projectType := v }
  | .city, v => { d with city := v }
  | .property, v => { d with property := v }
  | .estimatedCloseDate, v => { d with estimatedCloseDate := v }
  | .company, v => { d with company := v }
  | .timeline, v => { d with timeline := v }
  | .message, v => { d with message := v }

/-- The newErrors object built by validate, as a mapping from field to
optional message.  The source tests name, email, phone and projectType;
the remaining six fields are never given an entry.  The email condition
is the literal one of the source: the trimmed email is empty, or the
regular expression does not match the trimmed email. -/
def validateErrors (d : FormData) : FieldName → Option String
  | .name => if jsTrim d.name = "" then some "Required" else none
  | .email =>
    if jsTrim d.email = "" ∨ emailRegexTest (jsTrim d.email) = false then
      some "Invalid email"
    else none
  | .phone => if jsTrim d.phone = "" then some "Required" else none
  | .projectType => if jsTrim d.projectType = "" then some "Required" else none
  | _ => none

/-- The boolean result of validate: the newErrors object has no keys,
which holds exactly when none of the four tested fields received an
entry. -/
def validate (d : FormData) : Bool :=
  (validateErrors d .name).isNone && (validateErrors d .email).isNone
    && (validateErrors d .phone).isNone && (validateErrors d .projectType).isNone

/-- The eight non-empty option values of the projectType select element
(lines 418 to 425 of the page). -/
def serviceOptions : List String :=
  ["Forward Exchange", "Reverse Exchange", "Qualified Intermediary Services",
   "Property Identification", "NNN Property Identification",
   "Exchange Consultation", "Form 8824 Preparation", "Boot Analysis"]

/-- Embedding of handleChange for one field: set the field of the draft
to the new value and clear exactly that field entry of the error
mapping. -/
def handleChange (f : FieldName) (v : String) (d : FormData)
    (errs : FieldName → Option String) : FormData × (FieldName → Option String) :=
  (d.set f v, fun g => if g = f then none else errs g)

/-- The four-value UI status flag of the component. -/
inductive Status
  | idle | submitting | success | error
deriving DecidableEq

/-- Embedding of JavaScript truthiness for an optional string value
(siteKey and turnstileId in the source): the value is truthy exactly
when it is present and non-empty. -/
def optTruthy : Option String → Bool
  | none => false
  | some s => s != ""

/-- Result of awaiting response.json() on a non-OK backend response:
either the parse rejected, or it produced an object whose error field
is absent or carries a string. -/
inductive JsonBody
  | parseFailure
  | parsed (errorField : Option String)
deriving DecidableEq

/-- The backend HTTP response visible to handleSubmit: the ok flag and
the body as seen through response.json(). -/
structure BackendResponse where
  ok : Bool
  body : JsonBody
deriving DecidableEq

/-- The errorData object of the non-OK branch: the parsed body, with
the catch fallback substituting an object whose error field is the
string Failed to submit form. -/
def errorDataField : JsonBody → Option String
  | .parseFailure => some "Failed to submit form"
  | .parsed e => e

/-- The feedback shown on a non-OK response: errorData.error when that
value is truthy (present and non-empty), else the generic fallback of
the source line errorData.error or-else the retry message. -/
def nonOkFeedback (b : JsonBody) : String :=
  match errorDataField b with
  | some s => if s = "" then "Failed to submit form. Please try again." else s
  | none => "Failed to submit form. Please try again."

/-- The JSON payload of the POST to /api/contact, with the draft keys
renamed as in the source (message becomes details) and the token
attached. -/
structure Payload where
  name : String
  email : String
  phone : String
  projectType : String
  city : String
  property : String
  estimatedCloseDate : String
  company : String
  timeline : String
  details : String
  turnstileToken : String
deriving DecidableEq

/-- The request body built in handleSubmit: all draft fields, the phone
normalized to digits only, the message field under the key details, and
the token. -/
def mkPayload (d : FormData) (token : String) : Payload :=
  { name := d.name, email := d.email, phone := digitsOnly d.phone,
    projectType := d.projectType, city := d.city, property := d.property,
    estimatedCloseDate := d.estimatedCloseDate, company := d.company,
    timeline := d.timeline, details := d.message, turnstileToken := token }

/-- The environment one submission attempt runs against: the configured
site key, whether the widget API object is present, the stored widget
identifier, the readiness flag, the outcome of the asynchronous execute
call, whether the fetch itself throws, and the backend response. -/
structure Env where
  siteKey : Option String
  turnstileApi : Bool
  turnstileId : Option String
  turnstileReady : Bool
  executeResult : Except Unit String
  fetchThrows : Bool
  response : BackendResponse

/-- The observable outcome of one handleSubmit call: the final status,
the feedback message, the draft afterwards, the error mapping
afterwards, and the list of network requests issued (in order). -/
structure SubmitOutcome where
  status : Status
  feedback : String
  formData : FormData
  errors : FieldName → Option String
  requests : List Payload

/-- The empty error mapping, the value of setErrors applied to the
empty object. -/
def noErrors : FieldName → Option String := fun _ => none

/-- The guard of the source line siteKey and-also (not turnstileReady
or-else not window.turnstile or-else not turnstileId): verification is
configured but the session is not ready. -/
def guardBlocked (env : Env) : Bool :=
  optTruthy env.siteKey
    && (!env.turnstileReady || !env.turnstileApi || !optTruthy env.turnstileId)

/-- The condition of the token-acquisition block, source line siteKey
and-also window.turnstile and-also turnstileId. -/
def tokenRequested (env : Env) : Bool :=
  optTruthy env.siteKey && env.turnstileApi && optTruthy env.turnstileId

/-- The value bound to turnstileToken after the token block: it starts
as the empty string and is replaced by the awaited execute result only
when the block runs; a rejection of execute is an error outcome. -/
def acquiredToken (env : Env) : Except Unit String :=
  if tokenRequested env then env.executeResult else Except.ok ""

/-- The fetch and response handling of handleSubmit: one request is
issued; a thrown fetch lands in the outer catch with the generic retry
message; an OK response clears the draft, sets success and shows the
fixed confirmation; a non-OK response keeps the draft, sets error and
shows the parsed or fallback message. -/
def fetchStage (d : FormData) (token : String) (env : Env) : SubmitOutcome :=
  let payload := mkPayload d token
  if env.fetchThrows then
    { status := Status.error,
      feedback := "An error occurred. Please try again or contact us directly.",
      formData := d, errors := noErrors, requests := [payload] }
  else if env.response.ok then
    { status := Status.success,
      feedback := "Thank you. A Los Angeles exchange specialist will follow up within one business day.",
      formData := emptyFormData, errors := noErrors, requests := [payload] }
  else
    { status := Status.error, feedback := nonOkFeedback env.response.body,
      formData := d, errors := noErrors, requests := [payload] }

/-- The body of handleSubmit after validation passed: the not-ready
guard, then token acquisition, then the fetch stage. -/
def submitCore (d : FormData) (env : Env) : SubmitOutcome :=
  if guardBlocked env then
    { status := Status.error,
      feedback := "Please complete the security verification.",
      formData := d, errors := noErrors, requests := [] }
  else
    match acquiredToken env with
    | Except.error _ =>
      { status := Status.error,
        feedback := "Security verification failed. Please try again.",
        formData := d, errors := noErrors, requests := [] }
    | Except.ok token => fetchStage d token env

/-- Embedding of handleSubmit: on validation failure the status keeps
its prior value, the errors are the validation errors and a summary
message is shown, with no request; otherwise the submission proceeds
through submitCore. -/
def handleSubmit (st0 : Status) (d : FormData) (env : Env) : SubmitOutcome :=
  if validate d then submitCore d env
  else
    { status := st0, feedback := "Please complete all required fields.",
      formData := d, errors := validateErrors d, requests := [] }

/-- The page-lifetime state the loadTurnstile utility manipulates: the
process-wide loaded flag, the number of matching script elements in the
document, and (as instrumentation) the number of script elements that
loadTurnstile itself appended. -/
structure PageState where
  turnstileLoaded : Bool
  scriptCount : Nat
  addedByLoader : Nat
deriving DecidableEq

/-- How one call to loadTurnstile returns, as far as the page state is
concerned: either the promise is already resolved on return, or a new
script element was appended and the promise is pending its load or
error event. -/
inductive LoadCallResult
  | resolvedNow
  | pendingScript
deriving DecidableEq

/-- One call to loadTurnstile: if the loaded flag is set, resolve at
once; else if a matching script element exists, set the flag and
resolve; else append a script element and leave the promise pending. -/
def loadTurnstileCall (st : PageState) : PageState × LoadCallResult :=
  if st.turnstileLoaded then (st, LoadCallResult.resolvedNow)
  else if 0 < st.scriptCount then
    ({ st with turnstileLoaded := true }, LoadCallResult.resolvedNow)
  else
    ({ st with scriptCount := st.scriptCount + 1, addedByLoader := st.addedByLoader + 1 },
      LoadCallResult.pendingScript)

/-- The events that touch the loader state during a page lifetime: a
call to loadTurnstile, the load event of the appended script (its
onload sets the loaded flag), and the error event (onerror rejects the
promise and changes no loader state). -/
inductive PageEvent
  | call
  | loadFired
  | errorFired
deriving DecidableEq

/-- Effect of one page event on the loader state. -/
def pageStep (st : PageState) : PageEvent → PageState
  | PageEvent.call => (loadTurnstileCall st).1
  | PageEvent.loadFired => { st with turnstileLoaded := true }
  | PageEvent.errorFired => st

/-- Run a sequence of page events from a state. -/
def runEvents (st : PageState) : List PageEvent → PageState
  | [] => st
  | e :: es => runEvents (pageStep st e) es

/-- A fresh page: flag unset, no matching script element, nothing
appended yet. -/
def initialPage : PageState :=
  { turnstileLoaded := false, scriptCount := 0, addedByLoader := 0 }

/-- The component state the initialization effect and the submit button
read: the status, the readiness flag, the stored widget identifier, and
(as instrumentation) whether the widget success callback has fired,
meaning a challenge was actually completed. -/
structure CState where
  status : Status
  turnstileReady : Bool
  turnstileId : Option String
  challengeCompleted : Bool
deriving DecidableEq

/-- The success callback registered with render: it marks the session
ready; the instrumentation records that a challenge completed. -/
def widgetSuccessCallback (st : CState) : CState :=
  { st with turnstileReady := true, challengeCompleted := true }

/-- The two state updates the initialization effect performs right
after the render call returns an identifier: store the identifier and
set the readiness flag, without any callback having fired. -/
def afterRender (id : String) (st : CState) : CState :=
  { st with turnstileId := some id, turnstileReady := true }

/-- The disabled expression of the submit button: status is submitting,
or a site key is configured and the session is not ready. -/
def submitButtonDisabled (siteKey : Option String) (st : CState) : Bool :=
  (if st.status = Status.submitting then true else false)
    || (optTruthy siteKey && !st.turnstileReady)

/-- A draft passing validation, with the phone value of the spec
example. -/
def validDraft : FormData :=
  { name := "A", email := "a@b.c", phone := "(818) 412-8402",
    projectType := "Forward Exchange", city := "", property := "",
    estimatedCloseDate := "", company := "", timeline := "", message := "" }

/-- An environment with verification disabled and an OK backend
response. -/
def plainEnv : Env :=
  { siteKey := none, turnstileApi := false, turnstileId := none,
    turnstileReady := false, executeResult := Except.ok "",
    fetchThrows := false, response := { ok := true, body := JsonBody.parsed none } }

/-- An environment with a site key configured but the session not
ready. -/
def notReadyEnv : Env :=
  { siteKey := some "k", turnstileApi := false, turnstileId := none,
    turnstileReady := false, executeResult := Except.ok "tok",
    fetchThrows := false, response := { ok := true, body := JsonBody.parsed none } }

/-- An environment with verification disabled and a non-OK response
whose parsed body carries an empty error field. -/
def emptyErrorEnv : Env :=
  { siteKey := none, turnstileApi := false, turnstileId := none,
    turnstileReady := false, executeResult := Except.ok "",
    fetchThrows := false,
    response := { ok := false, body := JsonBody.parsed (some "") } }

/-- An otherwise valid draft whose projectType is a non-empty string
that is not one of the select options. -/
def c1Draft : FormData :=
  { name := "A", email := "a@b.c", phone := "1", projectType := "Pizza",
    city := "", property := "", estimatedCloseDate := "", company := "",
    timeline := "", message := "" }

/-- A draft whose name is whitespace only and whose other required
fields are populated. -/
def whitespaceNameDraft : FormData :=
  { name := " ", email := "a@b.c", phone := "1", projectType := "x",
    city := "", property := "", estimatedCloseDate := "", company := "",
    timeline := "", message := "" }

/-- A component state before the widget has rendered: idle, not ready,
no identifier, no challenge completed. -/
def preRenderState : CState :=
  { status := Status.idle, turnstileReady := false, turnstileId := none,
    challengeCompleted := false }

/-- A submission issues a request exactly when it reaches the fetch
stage: validation passed, the not-ready guard did not fire, and token
acquisition resolved. -/
theorem handleSubmit_eq_fetchStage (st0 : Status) (d : FormData) (env : Env)
    (hreq : (handleSubmit st0 d env).requests ≠ []) :
    ∃ token, acquiredToken env = Except.ok token ∧
      handleSubmit st0 d env = fetchStage d token env := by
  by_cases hv : validate d = true
  · by_cases hg : guardBlocked env = true
    · exact absurd (by simp [handleSubmit, hv, submitCore, hg]) hreq
    · cases hexec : acquiredToken env with
      | error e =>
        exact absurd (by simp [handleSubmit, hv, submitCore, hg, hexec]) hreq
      | ok token =>
        exact ⟨token, rfl, by simp [handleSubmit, hv, submitCore, hg, hexec]⟩
  · exact absurd (by simp [handleSubmit, hv]) hreq

/-- The fetch stage issues exactly one request, the payload built from
the draft and the token. -/
theorem fetchStage_requests (d : FormData) (token : String) (env : Env) :
    (fetchStage d token env).requests = [mkPayload d token] := by
  unfold fetchStage
  by_cases h1 : env.fetchThrows = true <;> by_cases h2 : env.response.ok = true <;>
    simp [h1, h2]

/-- The fetch stage on a non-OK response that did not throw. -/
theorem fetchStage_nonOk (d : FormData) (token : String) (env : Env)
    (hthrow : env.fetchThrows = false) (hok : env.response.ok = false) :
    fetchStage d token env =
      { status := Status.error, feedback := nonOkFeedback env.response.body,
        formData := d, errors := noErrors, requests := [mkPayload d token] } := by
  simp [fetchStage, hthrow, hok]

/-- The fetch stage on an OK response that did not throw. -/
theorem fetchStage_ok (d : FormData) (token : String) (env : Env)
    (hthrow : env.fetchThrows = false) (hok : env.response.ok = true) :
    fetchStage d token env =
      { status := Status.success,
        feedback := "Thank you. A Los Angeles exchange specialist will follow up within one business day.",
        formData := emptyFormData, errors := noErrors,
        requests := [mkPayload d token] } := by
  simp [fetchStage, hthrow, hok]

/-- C1 counterexample: an otherwise valid draft whose projectType is
the non-empty string Pizza, which is not one of the eight select
options, nevertheless passes validation; the claim says such a draft
fails validation. -/
theorem projectType_unlisted_passes_validation :
    c1Draft.projectType = "Pizza" ∧ c1Draft.projectType ∉ serviceOptions ∧
    c1Draft.projectType ≠ "" ∧ validate c1Draft = true := by decide

/-- C1 (amended): validation accepts the projectType field exactly when
it is non-empty after trimming; in particular a non-empty value outside
the enumerated option set also passes, membership being enforced only
by the select element of the markup. -/
theorem projectType_validation_nonempty_only (d : FormData) :
    (validateErrors d FieldName.projectType = none ↔ jsTrim d.projectType ≠ "") ∧
    (d.projectType ∉ serviceOptions → jsTrim d.projectType ≠ "" →
      validateErrors d FieldName.projectType = none) := by
  constructor
  · by_cases h : jsTrim d.projectType = "" <;> simp [validateErrors, h]
  · intro _ h
    simp [validateErrors, h]

/-- Witness for the amended C1 theorem at the concrete unlisted
draft. -/
theorem projectType_validation_nonempty_only_witness :
    c1Draft.projectType ∉ serviceOptions ∧ jsTrim c1Draft.projectType ≠ "" ∧
    validateErrors c1Draft FieldName.projectType = none :=
  ⟨by decide, by decide,
    (projectType_validation_nonempty_only c1Draft).2 (by decide) (by decide)⟩

/-- C2: for any valid draft, when a site key is configured (truthy) but
the session is not ready (readiness flag false, widget API absent, or
identifier not truthy), submitting issues no request, ends in the error
status and shows the security-verification message. -/
theorem submit_blocked_when_verification_not_ready
    (st0 : Status) (d : FormData) (env : Env)
    (hv : validate d = true)
    (hk : optTruthy env.siteKey = true)
    (hnr : env.turnstileReady = false ∨ env.turnstileApi = false ∨
      optTruthy env.turnstileId = false) :
    (handleSubmit st0 d env).requests = [] ∧
    (handleSubmit st0 d env).status = Status.error ∧
    (handleSubmit st0 d env).feedback = "Please complete the security verification." := by
  have hg : guardBlocked env = true := by
    unfold guardBlocked
    rcases hnr with h | h | h <;> simp [hk, h]
  simp [handleSubmit, hv, submitCore, hg]

/-- Witness for C2 at a concrete valid draft and not-ready
environment. -/
theorem submit_blocked_when_verification_not_ready_witness :
    (handleSubmit Status.idle validDraft notReadyEnv).requests = [] ∧
    (handleSubmit Status.idle validDraft notReadyEnv).status = Status.error ∧
    (handleSubmit Status.idle validDraft notReadyEnv).feedback =
      "Please complete the security verification." :=
  submit_blocked_when_verification_not_ready Status.idle validDraft notReadyEnv
    (by decide) (by decide) (Or.inl (by decide))

/-- C3 counterexample: a non-OK response whose parsed body carries the
error field with the empty string displays the generic retry message,
not the error field value; the claim says the displayed message equals
the error field whenever the field is present. -/
theorem empty_error_field_shows_generic_message :
    emptyErrorEnv.response.ok = false ∧
    emptyErrorEnv.response.body = JsonBody.parsed (some "") ∧
    (handleSubmit Status.idle validDraft emptyErrorEnv).feedback ≠ "" ∧
    (handleSubmit Status.idle validDraft emptyErrorEnv).feedback =
      "Failed to submit form. Please try again." := by decide

/-- C3 (amended): on a non-OK backend response the status becomes
error and the draft is left unchanged; the displayed message is exactly
the error field of the parsed body when that field is present and
non-empty, the string Failed to submit form when the body fails to
parse, and the generic retry message when the field is absent or
empty. -/
theorem non_ok_response_error_handling
    (st0 : Status) (d : FormData) (env : Env)
    (hreq : (handleSubmit st0 d env).requests ≠ [])
    (hthrow : env.fetchThrows = false)
    (hok : env.response.ok = false) :
    (handleSubmit st0 d env).status = Status.error ∧
    (handleSubmit st0 d env).formData = d ∧
    (∀ s : String, env.response.body = JsonBody.parsed (some s) → s ≠ "" →
      (handleSubmit st0 d env).feedback = s) ∧
    (env.response.body = JsonBody.parseFailure →
      (handleSubmit st0 d env).feedback = "Failed to submit form") ∧
    ((env.response.body = JsonBody.parsed none ∨
        env.response.body = JsonBody.parsed (some "")) →
      (handleSubmit st0 d env).feedback = "Failed to submit form. Please try again.") := by
  obtain ⟨token, htok, heq⟩ := handleSubmit_eq_fetchStage st0 d env hreq
  rw [heq, fetchStage_nonOk d token env hthrow hok]
  refine ⟨rfl, rfl, ?_, ?_, ?_⟩
  · intro s hs hne
    simp only [hs, nonOkFeedback, errorDataField]
    rw [if_neg hne]
  · intro h
    rw [h]
    rfl
  · rintro (h | h) <;> rw [h] <;> rfl

/-- Witness for the amended C3 theorem: HTTP 500 with the body error
field Duplicate lead displays exactly Duplicate lead and keeps the
draft. -/
theorem non_ok_response_error_handling_witness :
    (handleSubmit Status.idle validDraft
      { siteKey := none, turnstileApi := false, turnstileId := none,
        turnstileReady := false, executeResult := Except.ok "",
        fetchThrows := false,
        response := { ok := false, body := JsonBody.parsed (some "Duplicate lead") } }).status =
      Status.error ∧
    (handleSubmit Status.idle validDraft
      { siteKey := none, turnstileApi := false, turnstileId := none,
        turnstileReady := false, executeResult := Except.ok "",
        fetchThrows := false,
        response := { ok := false, body := JsonBody.parsed (some "Duplicate lead") } }).formData =
      validDraft ∧
    (handleSubmit Status.idle validDraft
      { siteKey := none, turnstileApi := false, turnstileId := none,
        turnstileReady := false, executeResult := Except.ok "",
        fetchThrows := false,
        response := { ok := false, body := JsonBody.parsed (some "Duplicate lead") } }).feedback =
      "Duplicate lead" := by
  have h := non_ok_response_error_handling Status.idle validDraft
    { siteKey := none, turnstileApi := false, turnstileId := none,
      turnstileReady := false, executeResult := Except.ok "",
      fetchThrows := false,
      response := { ok := false, body := JsonBody.parsed (some "Duplicate lead") } }
    (by decide) rfl rfl
  exact ⟨h.1, h.2.1, h.2.2.1 "Duplicate lead" rfl (by decide)⟩

/-- C4: on an OK backend response the draft is cleared (every one of
the ten fields becomes the empty string), the status becomes success
and the fixed confirmation message is shown. -/
theorem ok_response_clears_draft_and_succeeds
    (st0 : Status) (d : FormData) (env : Env)
    (hreq : (handleSubmit st0 d env).requests ≠ [])
    (hthrow : env.fetchThrows = false)
    (hok : env.response.ok = true) :
    (∀ f : FieldName, (handleSubmit st0 d env).formData.get f = "") ∧
    (handleSubmit st0 d env).formData = emptyFormData ∧
    (handleSubmit st0 d env).status = Status.success ∧
    (handleSubmit st0 d env).feedback =
      "Thank you. A Los Angeles exchange specialist will follow up within one business day." := by
  obtain ⟨token, htok, heq⟩ := handleSubmit_eq_fetchStage st0 d env hreq
  rw [heq, fetchStage_ok d token env hthrow hok]
  refine ⟨fun f => ?_, rfl, rfl, rfl⟩
  cases f <;> rfl

/-- Witness for C4 at a concrete valid draft and OK environment. -/
theorem ok_response_clears_draft_and_succeeds_witness :
    (handleSubmit Status.idle validDraft plainEnv).formData = emptyFormData ∧
    (handleSubmit Status.idle validDraft plainEnv).status = Status.success :=
  ⟨(ok_response_clears_draft_and_succeeds Status.idle validDraft plainEnv
      (by decide) rfl rfl).2.1,
   (ok_response_clears_draft_and_succeeds Status.idle validDraft plainEnv
      (by decide) rfl rfl).2.2.1⟩

/-- C5: with no truthy site key configured, submitting a valid draft
issues exactly one request, whose turnstileToken field is the empty
string. -/
theorem no_sitekey_single_request_empty_token
    (st0 : Status) (d : FormData) (env : Env)
    (hv : validate d = true)
    (hk : optTruthy env.siteKey = false) :
    (handleSubmit st0 d env).requests = [mkPayload d ""] ∧
    (mkPayload d "").turnstileToken = "" := by
  have hg : guardBlocked env = false := by simp [guardBlocked, hk]
  have ht : tokenRequested env = false := by simp [tokenRequested, hk]
  have htok : acquiredToken env = Except.ok "" := by simp [acquiredToken, ht]
  exact ⟨by simp [handleSubmit, hv, submitCore, hg, htok, fetchStage_requests], rfl⟩

/-- Witness for C5 at a concrete valid draft with verification
disabled. -/
theorem no_sitekey_single_request_empty_token_witness :
    (handleSubmit Status.idle validDraft plainEnv).requests = [mkPayload validDraft ""] ∧
    (mkPayload validDraft "").turnstileToken = "" :=
  no_sitekey_single_request_empty_token Status.idle validDraft plainEnv
    (by decide) (by decide)

/-- C6: a draft whose name, email, phone or projectType trims to the
empty string (missing, empty or whitespace-only) fails validation, and
the error mapping carries an entry for that field. -/
theorem missing_required_field_fails_validation
    (d : FormData) (f : FieldName)
    (hf : f = FieldName.name ∨ f = FieldName.email ∨ f = FieldName.phone ∨
      f = FieldName.projectType)
    (hws : jsTrim (d.get f) = "") :
    validate d = false ∧ validateErrors d f ≠ none := by
  rcases hf with h | h | h | h <;> subst h
  · have hws' : jsTrim d.name = "" := hws
    exact ⟨by simp [validate, validateErrors, hws'], by simp [validateErrors, hws']⟩
  · have hws' : jsTrim d.email = "" := hws
    exact ⟨by simp [validate, validateErrors, hws'], by simp [validateErrors, hws']⟩
  · have hws' : jsTrim d.phone = "" := hws
    exact ⟨by simp [validate, validateErrors, hws'], by simp [validateErrors, hws']⟩
  · have hws' : jsTrim d.projectType = "" := hws
    exact ⟨by simp [validate, validateErrors, hws'], by simp [validateErrors, hws']⟩

/-- Witness for C6 at a draft whose name is whitespace only. -/
theorem missing_required_field_fails_validation_witness :
    validate whitespaceNameDraft = false ∧
    validateErrors whitespaceNameDraft FieldName.name ≠ none :=
  missing_required_field_fails_validation whitespaceNameDraft FieldName.name
    (Or.inl rfl) (by decide)

/-- C7: whenever a submission issues a request, the phone value of the
transmitted payload is exactly the decimal digits of the draft phone
field in order; in particular the spec example normalizes as stated. -/
theorem phone_transmitted_digits_only :
    (∀ (st0 : Status) (d : FormData) (env : Env) (p : Payload),
      (handleSubmit st0 d env).requests = [p] → p.phone = digitsOnly d.phone) ∧
    digitsOnly "(818) 412-8402" = "8184128402" := by
  constructor
  · intro st0 d env p hp
    obtain ⟨token, htok, heq⟩ := handleSubmit_eq_fetchStage st0 d env (by rw [hp]; simp)
    rw [heq, fetchStage_requests d token env] at hp
    simp only [List.cons.injEq, and_true] at hp
    rw [← hp]
    rfl
  · decide

/-- Witness for C7 at a concrete submission carrying the spec example
phone number. -/
theorem phone_transmitted_digits_only_witness :
    (handleSubmit Status.idle validDraft plainEnv).requests = [mkPayload validDraft ""] ∧
    (mkPayload validDraft "").phone = digitsOnly validDraft.phone ∧
    digitsOnly validDraft.phone = "8184128402" :=
  ⟨by decide,
   phone_transmitted_digits_only.1 Status.idle validDraft plainEnv
     (mkPayload validDraft "") (by decide),
   by decide⟩

/-- C8: the change handler for a field sets exactly that field of the
draft to the new value and clears exactly that field entry of the error
mapping, leaving every other field value and error entry unchanged. -/
theorem field_change_updates_only_its_field
    (f g : FieldName) (v : String) (d : FormData) (errs : FieldName → Option String) :
    (handleChange f v d errs).1.get f = v ∧
    (handleChange f v d errs).2 f = none ∧
    (g ≠ f → (handleChange f v d errs).1.get g = d.get g) ∧
    (g ≠ f → (handleChange f v d errs).2 g = errs g) := by
  refine ⟨?_, ?_, fun hne => ?_, fun hne => ?_⟩
  · cases f <;> rfl
  · simp [handleChange]
  · cases f <;> cases g <;> first | exact absurd rfl hne | rfl
  · simp [handleChange, hne]

/-- Witness for C8: editing the name field at a concrete state changes
the name value, clears the name error, and leaves the email value and
email error untouched. -/
theorem field_change_updates_only_its_field_witness :
    (handleChange FieldName.name "x" emptyFormData noErrors).1.get FieldName.name = "x" ∧
    (handleChange FieldName.name "x" emptyFormData noErrors).2 FieldName.name = none ∧
    (handleChange FieldName.name "x" emptyFormData noErrors).1.get FieldName.email =
      emptyFormData.get FieldName.email ∧
    (handleChange FieldName.name "x" emptyFormData noErrors).2 FieldName.email =
      noErrors FieldName.email :=
  ⟨(field_change_updates_only_its_field FieldName.name FieldName.email "x"
      emptyFormData noErrors).1,
   (field_change_updates_only_its_field FieldName.name FieldName.email "x"
      emptyFormData noErrors).2.1,
   (field_change_updates_only_its_field FieldName.name FieldName.email "x"
      emptyFormData noErrors).2.2.1 (by decide),
   (field_change_updates_only_its_field FieldName.name FieldName.email "x"
      emptyFormData noErrors).2.2.2 (by decide)⟩

/-- Over any event sequence, the loader appends at most one script,
provided it has appended at most one so far and an append is always
witnessed by a script element in the document. -/
theorem runEvents_added_le_one (evs : List PageEvent) (st : PageState)
    (h1 : st.addedByLoader ≤ 1)
    (h2 : 1 ≤ st.addedByLoader → 1 ≤ st.scriptCount) :
    (runEvents st evs).addedByLoader ≤ 1 := by
  induction evs generalizing st with
  | nil => exact h1
  | cons e es ih =>
    cases e with
    | call =>
      show (runEvents (pageStep st PageEvent.call) es).addedByLoader ≤ 1
      by_cases hl : st.turnstileLoaded = true
      · have hstep : pageStep st PageEvent.call = st := by
          simp [pageStep, loadTurnstileCall, hl]
        rw [hstep]
        exact ih st h1 h2
      · by_cases hc : 0 < st.scriptCount
        · have hstep : pageStep st PageEvent.call = { st with turnstileLoaded := true } := by
            simp [pageStep, loadTurnstileCall, hl, hc]
          rw [hstep]
          exact ih _ h1 h2
        · have hadd : st.addedByLoader = 0 := by
            by_contra hne
            exact hc (Nat.lt_of_lt_of_le Nat.zero_lt_one
              (h2 (Nat.one_le_iff_ne_zero.mpr hne)))
          have hstep : pageStep st PageEvent.call = { st with scriptCount := st.scriptCount + 1, addedByLoader := st.addedByLoader + 1 } := by
            simp [pageStep, loadTurnstileCall, hl, hc]
          rw [hstep]
          apply ih
          · simp [hadd]
          · intro _
            exact Nat.le_add_left 1 st.scriptCount
    | loadFired => exact ih _ h1 h2
    | errorFired => exact ih _ h1 h2

/-- C9: once the process-wide loaded flag is set, every further call to
the loader returns at once with the state unchanged (so nothing is
appended); and over any sequence of calls and script events from a
fresh page, the loader appends at most one script element. -/
theorem loader_idempotent_after_loaded :
    (∀ st : PageState, st.turnstileLoaded = true →
      loadTurnstileCall st = (st, LoadCallResult.resolvedNow)) ∧
    (∀ evs : List PageEvent, (runEvents initialPage evs).addedByLoader ≤ 1) := by
  constructor
  · intro st h
    simp [loadTurnstileCall, h]
  · intro evs
    exact runEvents_added_le_one evs initialPage (by decide) (by decide)

/-- Witness for C9: a loaded state is left untouched by a further call,
and a concrete event sequence with three calls appends at most one
script. -/
theorem loader_idempotent_after_loaded_witness :
    loadTurnstileCall { turnstileLoaded := true, scriptCount := 1, addedByLoader := 1 } =
      ({ turnstileLoaded := true, scriptCount := 1, addedByLoader := 1 },
        LoadCallResult.resolvedNow) ∧
    (runEvents initialPage
      [PageEvent.call, PageEvent.call, PageEvent.loadFired, PageEvent.call]).addedByLoader ≤ 1 :=
  ⟨loader_idempotent_after_loaded.1 _ rfl, loader_idempotent_after_loaded.2 _⟩

/-- C10: right after the render call returns an identifier, the
component stores the identifier and sets the readiness flag even though
no success callback has fired; with a non-empty site key configured and
the status not submitting, the submit button is then enabled before any
challenge has been completed. -/
theorem ready_set_immediately_after_render
    (k : String) (_hk : k ≠ "") (id : String) (st : CState)
    (hc : st.challengeCompleted = false)
    (hs : st.status ≠ Status.submitting) :
    (afterRender id st).turnstileReady = true ∧
    (afterRender id st).turnstileId = some id ∧
    (afterRender id st).challengeCompleted = false ∧
    submitButtonDisabled (some k) (afterRender id st) = false := by
  refine ⟨rfl, rfl, hc, ?_⟩
  simp [submitButtonDisabled, afterRender, hs]

/-- Witness for C10 at a concrete pre-render state. -/
theorem ready_set_immediately_after_render_witness :
    (afterRender "w" preRenderState).turnstileReady = true ∧
    (afterRender "w" preRenderState).turnstileId = some "w" ∧
    (afterRender "w" preRenderState).challengeCompleted = false ∧
    submitButtonDisabled (some "key") (afterRender "w" preRenderState) = false :=
  ready_set_immediately_after_render "key" (by decide) "w" preRenderState rfl (by decide)
